import Mathlib

/-!
Shallow embedding of the chatbot service in `src/main.py`.

The program is a FastAPI service with one worker flow (`chat_endpoint`):
it looks the lower-cased query up in Redis, on a truthy hit logs a row
with status "cached" and returns the cached value; on a miss it calls
OpenAI through `get_openai_response`, writes the stripped answer to Redis
with `setex(key, 3600, value)`, logs a "success" row and returns the
answer; if the OpenAI call raised, `get_openai_response` converts the
exception into `HTTPException(500, "Error in interaction with OpenAI API")`,
the endpoint logs an "error" row embedding that detail and re-raises.
The endpoint is guarded by a slowapi limiter declared `5/minute`, keyed
by client IP, on the chat route only.

External effects are made explicit: the Redis store is an association
list with absolute expiry instants, the upstream call is an oracle
parameter of type `Except String String` (its outcome for this request),
and the database insert performed by `log_request_to_db` is controlled by
a boolean `db_ok` (the insert either commits or raises, as psycopg2
does).  Each invocation returns its result together with the new cache
and an `Effects` record counting the cache reads, cache writes, upstream
calls and log attempts it performed.
-/

/-- One character lower-cased, as Python's `str.lower` does for the ASCII
range handled by `Char.toLower`. -/
def pyLowerChar (c : Char) : Char := c.toLower

/-- Python's `query.lower()` on the embedded strings. -/
def pyLower (s : String) : String := String.mk (s.data.map pyLowerChar)

/-- Python's `str.strip()`: drop leading and trailing whitespace, as
applied to the OpenAI message content in `get_openai_response`. -/
def pyStrip (s : String) : String :=
  String.mk (((s.data.dropWhile Char.isWhitespace).reverse.dropWhile Char.isWhitespace).reverse)

/-- Python truthiness of `redis_client.get`'s result (`None` or a string,
since the client is built with `decode_responses=True`): `None` and the
empty string are falsy.  This is the test `if cached_response:` performs. -/
def py_truthy : Option String → Bool
  | none => false
  | some s => s != ""

/-- One Redis entry: key, stored value, and the absolute instant at which
the entry expires (write time + TTL). -/
structure CacheEntry where
  key : String
  value : String
  expiresAt : Nat
deriving DecidableEq

/-- The Redis store visible to the handler. -/
abbrev Cache := List CacheEntry

/-- Behaviour of `redis_client.get(k)` at instant `now`: the stored value
while the entry has not expired, otherwise absent. -/
def redis_get (cache : Cache) (now : Nat) (k : String) : Option String :=
  match cache.find? (fun e => e.key == k) with
  | some e => if now < e.expiresAt then some e.value else none
  | none => none

/-- Behaviour of `redis_client.setex(k, ttl, v)` at instant `now`: the key
is (re)bound to `v` and expires `ttl` seconds from the write. -/
def redis_setex (cache : Cache) (now : Nat) (k : String) (ttl : Nat) (v : String) : Cache :=
  ⟨k, v, now + ttl⟩ :: cache.filter (fun e => e.key != k)

/-- The row `log_request_to_db` inserts into `request_logs`
(ip_address, request_text, response_text, status). -/
structure LogEntry where
  ip_address : String
  request_text : String
  response_text : String
  status : String
deriving DecidableEq

/-- The row built by `log_request_to_db(db_conn, ip, request, response, status)`. -/
def log_request_to_db (ip_address request_text response_text status : String) : LogEntry :=
  ⟨ip_address, request_text, response_text, status⟩

/-- FastAPI's `HTTPException` with the two fields the program uses. -/
structure HTTPException where
  status_code : Nat
  detail : String
deriving DecidableEq

/-- Result of `get_openai_response(prompt)`: the call either returns the
stripped message content, or any exception from the client is caught,
logged to operator output, and replaced by
`HTTPException(500, "Error in interaction with OpenAI API")`.  The
`upstream` oracle is what `openai.chat.completions.create` does on this
call: the raw content on success, or the exception text on failure. -/
def get_openai_response (upstream : Except String String) : Except HTTPException String :=
  match upstream with
  | Except.ok content => Except.ok (pyStrip content)
  | Except.error _ => Except.error ⟨500, "Error in interaction with OpenAI API"⟩

/-- What one invocation of `chat_endpoint` produces for the client:
a JSON body `{"response": r, "source": s}`, a raised `HTTPException`,
or an unhandled database exception escaping the handler. -/
inductive ChatResult where
  | ok (response : String) (source : String)
  | httpError (e : HTTPException)
  | dbFailure
deriving DecidableEq

/-- Counters of the side effects one invocation performed: Redis reads,
Redis writes (key, ttl, value), upstream calls, attempted database log
inserts, and the log rows actually committed. -/
structure Effects where
  cacheReads : Nat
  cacheWrites : List (String × Nat × String)
  upstreamCalls : Nat
  logAttempts : Nat
  logEntries : List LogEntry
deriving DecidableEq

/-- Effects of a request that was answered before the handler body ran. -/
def noEffects : Effects := ⟨0, [], 0, 0, []⟩

/-- The body of `chat_endpoint(request, query, db_conn)` once the limiter
has admitted the request.  `now` is the current instant, `client_ip` the
value of `get_remote_address(request)`, `upstream` the oracle for the
OpenAI call, and `db_ok` whether the insert inside `log_request_to_db`
commits (when it raises, the psycopg2 exception is not caught anywhere
in the endpoint and escapes as `dbFailure`). -/
def chat_endpoint (now : Nat) (cache : Cache) (client_ip query : String)
    (upstream : Except String String) (db_ok : Bool) :
    ChatResult × Cache × Effects :=
  let cached_response := redis_get cache now (pyLower query)
  if py_truthy cached_response then
    let v := cached_response.getD ""
    if db_ok then
      (ChatResult.ok v "cache", cache,
        ⟨1, [], 0, 1, [log_request_to_db client_ip query v "cached"]⟩)
    else
      (ChatResult.dbFailure, cache, ⟨1, [], 0, 1, []⟩)
  else
    match get_openai_response upstream with
    | Except.ok response_text =>
      let cache2 := redis_setex cache now (pyLower query) 3600 response_text
      if db_ok then
        (ChatResult.ok response_text "api", cache2,
          ⟨1, [(pyLower query, 3600, response_text)], 1, 1,
            [log_request_to_db client_ip query response_text "success"]⟩)
      else
        (ChatResult.dbFailure, cache2,
          ⟨1, [(pyLower query, 3600, response_text)], 1, 1, []⟩)
    | Except.error e =>
      if db_ok then
        (ChatResult.httpError e, cache,
          ⟨1, [], 1, 1,
            [log_request_to_db client_ip query ("Error: " ++ e.detail) "error"]⟩)
      else
        (ChatResult.dbFailure, cache, ⟨1, [], 1, 1, []⟩)

/-- Modelled from the spec: the slowapi limiter declared by
`limiter = Limiter(key_func=get_remote_address)` and
`@limiter.limit("5/minute")` is a third-party dependency whose window
algorithm is not in the repository; the spec describes it as a counter
keyed by client IP with threshold 5 requests per rolling 60-second
window.  `history` holds the arrival instants of this client's previous
requests to the chat route; a request at `now` is admitted while fewer
than 5 of them fall in the last 60 seconds. -/
def limiter_allows (history : List Nat) (now : Nat) : Bool :=
  (history.filter (fun t => now < t + 60)).length < 5

/-- What the application returns for a request to `GET /chat`. -/
inductive AppResult where
  | chat (r : ChatResult)
  | rateLimited
  | validationError
deriving DecidableEq

/-- A request to `GET /chat` as the framework processes it: FastAPI first
validates that the required `query` parameter is present (a missing
parameter is rejected with a validation error before the endpoint
function runs), then the slowapi wrapper checks the limit for this
client, and only then does the endpoint body run. -/
def handle_chat_request (history : List Nat) (now : Nat) (cache : Cache)
    (client_ip : String) (query : Option String)
    (upstream : Except String String) (db_ok : Bool) :
    AppResult × Cache × Effects :=
  match query with
  | none => (AppResult.validationError, cache, noEffects)
  | some q =>
    if limiter_allows history now then
      let r := chat_endpoint now cache client_ip q upstream db_ok
      (AppResult.chat r.1, r.2.1, r.2.2)
    else
      (AppResult.rateLimited, cache, noEffects)

/-- The root endpoint `GET /`, which carries no limiter decorator: it
returns its static message whatever the request history is. -/
def read_root : String := "Simple chatbot. Use endpoint /chat?query=Your_request"

/-- Handling of a request to `GET /` at instant `now` given the client's
request history: the route is not rate limited, so the inputs are
ignored and the static message is returned. -/
def handle_root_request (history : List Nat) (now : Nat) : String :=
  let _ := history
  let _ := now
  read_root

/-! ### Path lemmas for `chat_endpoint` -/

/-- On a truthy cache hit with a working database, the handler logs a
"cached" row with the original query and returns the cached value. -/
theorem chat_hit_true (now : Nat) (cache : Cache) (ip q v : String)
    (upstream : Except String String)
    (hget : redis_get cache now (pyLower q) = some v) (hv : v ≠ "") :
    chat_endpoint now cache ip q upstream true =
      (ChatResult.ok v "cache", cache,
        ⟨1, [], 0, 1, [⟨ip, q, v, "cached"⟩]⟩) := by
  unfold chat_endpoint
  rw [hget]
  simp [py_truthy, hv, log_request_to_db]

/-- On a falsy lookup with a successful upstream call and a working
database, the handler caches the stripped answer for 3600 seconds, logs
a "success" row and returns the answer with source "api". -/
theorem chat_miss_ok (now : Nat) (cache : Cache) (ip q content : String)
    (hmiss : py_truthy (redis_get cache now (pyLower q)) = false) :
    chat_endpoint now cache ip q (Except.ok content) true =
      (ChatResult.ok (pyStrip content) "api",
       redis_setex cache now (pyLower q) 3600 (pyStrip content),
       ⟨1, [(pyLower q, 3600, pyStrip content)], 1, 1,
         [⟨ip, q, pyStrip content, "success"⟩]⟩) := by
  simp only [chat_endpoint]
  rw [hmiss]
  simp [get_openai_response, log_request_to_db]

/-- On a falsy lookup with a failing upstream call and a working
database, the handler logs an "error" row embedding the generic detail,
writes nothing to the cache, and the generic 500 escapes. -/
theorem chat_miss_err (now : Nat) (cache : Cache) (ip q err : String)
    (hmiss : py_truthy (redis_get cache now (pyLower q)) = false) :
    chat_endpoint now cache ip q (Except.error err) true =
      (ChatResult.httpError ⟨500, "Error in interaction with OpenAI API"⟩, cache,
       ⟨1, [], 1, 1,
         [⟨ip, q, "Error: Error in interaction with OpenAI API", "error"⟩]⟩) := by
  simp only [chat_endpoint]
  rw [hmiss]
  simp [get_openai_response, log_request_to_db]

/-- A `setex` write is visible to a later `get` of the same key exactly
while the TTL has not elapsed. -/
theorem redis_get_setex_self (cache : Cache) (now later ttl : Nat) (k v : String) :
    redis_get (redis_setex cache now k ttl v) later k =
      if later < now + ttl then some v else none := by
  unfold redis_get redis_setex
  rw [List.find?_cons_of_pos _ (by simp)]

/-- Shape of the effect counters of any single invocation of the handler
body: one cache read, at most one cache write, at most one upstream
call, one attempted log insert, and exactly one committed log row when
the database is up. -/
theorem chat_effects_shape (now : Nat) (cache : Cache) (ip q : String)
    (upstream : Except String String) (db_ok : Bool) :
    (chat_endpoint now cache ip q upstream db_ok).2.2.cacheReads = 1 ∧
    (chat_endpoint now cache ip q upstream db_ok).2.2.cacheWrites.length ≤ 1 ∧
    (chat_endpoint now cache ip q upstream db_ok).2.2.upstreamCalls ≤ 1 ∧
    (chat_endpoint now cache ip q upstream db_ok).2.2.logAttempts = 1 ∧
    (db_ok = true → (chat_endpoint now cache ip q upstream db_ok).2.2.logEntries.length = 1) := by
  unfold chat_endpoint
  cases hpt : py_truthy (redis_get cache now (pyLower q)) <;>
    cases upstream <;>
      cases db_ok <;>
        simp [get_openai_response, hpt]

/-! ### Claims -/

/-- C1, counterexample: the claim fails when the stored cache value is the
empty string.  With `""` cached under key `"q"` and unexpired, the lookup
returns a present value, yet the handler takes the miss path: it calls
upstream once and answers with source "api", not the cached value with
source "cache". -/
theorem c1_counterexample :
    redis_get [⟨"q", "", 100⟩] 0 (pyLower "q") = some "" ∧
    (chat_endpoint 0 [⟨"q", "", 100⟩] "9.9.9.9" "q" (Except.ok "fresh") true).2.2.upstreamCalls
      = 1 ∧
    (chat_endpoint 0 [⟨"q", "", 100⟩] "9.9.9.9" "q" (Except.ok "fresh") true).1
      = ChatResult.ok "fresh" "api" := by decide

/-- C1, amended: for every query whose lower-cased form is present in the
cache with a non-empty value, the handler records a log entry with status
"cached" holding the original (non-normalized) query text and the cached
value, returns that cached value with source "cache", and makes no
upstream call. -/
theorem c1_cache_hit (now : Nat) (cache : Cache) (ip q v : String)
    (upstream : Except String String)
    (hget : redis_get cache now (pyLower q) = some v) (hv : v ≠ "") :
    chat_endpoint now cache ip q upstream true =
      (ChatResult.ok v "cache", cache,
        ⟨1, [], 0, 1, [⟨ip, q, v, "cached"⟩]⟩) :=
  chat_hit_true now cache ip q v upstream hget hv

/-- C1, witness: a concrete cache hit ("HI" against a cache holding
"hi" with value "yes"). -/
theorem c1_witness :
    (redis_get [⟨"hi", "yes", 10⟩] 0 (pyLower "HI") = some "yes") ∧
    chat_endpoint 0 [⟨"hi", "yes", 10⟩] "1.2.3.4" "HI" (Except.ok "x") true =
      (ChatResult.ok "yes" "cache", [⟨"hi", "yes", 10⟩],
        ⟨1, [], 0, 1, [⟨"1.2.3.4", "HI", "yes", "cached"⟩]⟩) :=
  ⟨by decide,
   c1_cache_hit 0 [⟨"hi", "yes", 10⟩] "1.2.3.4" "HI" "yes" (Except.ok "x")
     (by decide) (by decide)⟩

/-- C2: for every query whose lower-cased form is absent from the cache,
when the upstream call succeeds the handler writes the (stripped)
response into the cache under the lower-cased key with TTL exactly 3600
seconds, records a log entry with status "success", and returns the
response with source "api". -/
theorem c2_miss_success (now : Nat) (cache : Cache) (ip q content : String)
    (hmiss : redis_get cache now (pyLower q) = none) :
    chat_endpoint now cache ip q (Except.ok content) true =
      (ChatResult.ok (pyStrip content) "api",
       redis_setex cache now (pyLower q) 3600 (pyStrip content),
       ⟨1, [(pyLower q, 3600, pyStrip content)], 1, 1,
         [⟨ip, q, pyStrip content, "success"⟩]⟩) :=
  chat_miss_ok now cache ip q content (by rw [hmiss]; rfl)

/-- C2, witness: a concrete miss ("Hi" against the empty cache) with a
successful upstream answer "yo". -/
theorem c2_witness :
    redis_get [] 0 (pyLower "Hi") = none ∧
    chat_endpoint 0 [] "1.2.3.4" "Hi" (Except.ok "yo") true =
      (ChatResult.ok "yo" "api", [⟨"hi", "yo", 3600⟩],
        ⟨1, [("hi", 3600, "yo")], 1, 1, [⟨"1.2.3.4", "Hi", "yo", "success"⟩]⟩) :=
  ⟨by decide,
   (c2_miss_success 0 [] "1.2.3.4" "Hi" "yo" (by decide)).trans (by decide)⟩

/-- C3: on the cache-miss path, when the upstream call fails the handler
records a log entry with status "error" whose response_text embeds the
failure detail, writes nothing to the cache, and the failure escapes to
the caller as the generic 500 "Error in interaction with OpenAI API" —
the same result whatever the specific upstream error `err` was, so
nothing beyond the generic message is leaked. -/
theorem c3_miss_error (now : Nat) (cache : Cache) (ip q err : String)
    (hmiss : py_truthy (redis_get cache now (pyLower q)) = false) :
    chat_endpoint now cache ip q (Except.error err) true =
      (ChatResult.httpError ⟨500, "Error in interaction with OpenAI API"⟩, cache,
       ⟨1, [], 1, 1,
         [⟨ip, q, "Error: Error in interaction with OpenAI API", "error"⟩]⟩) :=
  chat_miss_err now cache ip q err hmiss

/-- C3, witness: a concrete miss whose upstream call raises
"socket timeout". -/
theorem c3_witness :
    py_truthy (redis_get [] 0 (pyLower "Hi")) = false ∧
    chat_endpoint 0 [] "1.2.3.4" "Hi" (Except.error "socket timeout") true =
      (ChatResult.httpError ⟨500, "Error in interaction with OpenAI API"⟩, [],
        ⟨1, [], 1, 1,
          [⟨"1.2.3.4", "Hi", "Error: Error in interaction with OpenAI API", "error"⟩]⟩) :=
  ⟨by decide, c3_miss_error 0 [] "1.2.3.4" "Hi" "socket timeout" (by decide)⟩

/-- C4, counterexample: when the upstream answer is the empty string, the
first call is answered via the upstream call (source "api"), yet the
subsequent differently-cased variant is not a cache hit: the handler
calls upstream again instead of returning the cached value. -/
theorem c4_counterexample :
    pyLower "Hello" = pyLower "hello" ∧
    (chat_endpoint 0 [] "7.7.7.7" "Hello" (Except.ok "") true).1 = ChatResult.ok "" "api" ∧
    (chat_endpoint 0 [] "7.7.7.7" "Hello" (Except.ok "") true).2.1 = [⟨"hello", "", 3600⟩] ∧
    (chat_endpoint 1 [⟨"hello", "", 3600⟩] "7.7.7.7" "hello" (Except.ok "4") true).2.2.upstreamCalls
      = 1 ∧
    (chat_endpoint 1 [⟨"hello", "", 3600⟩] "7.7.7.7" "hello" (Except.ok "4") true).1
      ≠ ChatResult.ok "" "cache" := by decide

/-- C4, amended: queries equal after lower-casing map to the same cache
key (the lookups agree), and a query answered via the upstream call with
a non-empty stripped answer makes a subsequent differently-cased variant,
asked before the 3600-second TTL has elapsed, a cache hit. -/
theorem c4_case_insensitive (now later : Nat) (cache : Cache)
    (ip1 ip2 q1 q2 content : String) (upstream2 : Except String String)
    (hlow : pyLower q1 = pyLower q2)
    (hmiss : redis_get cache now (pyLower q1) = none)
    (hne : pyStrip content ≠ "")
    (hts : later < now + 3600) :
    redis_get cache now (pyLower q1) = redis_get cache now (pyLower q2) ∧
    (chat_endpoint now cache ip1 q1 (Except.ok content) true).1
      = ChatResult.ok (pyStrip content) "api" ∧
    (chat_endpoint later (chat_endpoint now cache ip1 q1 (Except.ok content) true).2.1
        ip2 q2 upstream2 true).1
      = ChatResult.ok (pyStrip content) "cache" := by
  have h1 := chat_miss_ok now cache ip1 q1 content (by rw [hmiss]; rfl)
  refine ⟨by rw [hlow], by rw [h1], ?_⟩
  rw [h1]
  have hget2 : redis_get (redis_setex cache now (pyLower q1) 3600 (pyStrip content))
      later (pyLower q2) = some (pyStrip content) := by
    rw [← hlow, redis_get_setex_self]
    simp [hts]
  rw [chat_hit_true later _ ip2 q2 (pyStrip content) upstream2 hget2 hne]

/-- C4, witness: "HeLLo" then "hello", upstream answer " 4 " (stripped to
"4"), second request 10 seconds later. -/
theorem c4_witness :
    (pyLower "HeLLo" = pyLower "hello" ∧
      redis_get [] 0 (pyLower "HeLLo") = none ∧
      pyStrip " 4 " ≠ "" ∧ 10 < 0 + 3600) ∧
    (redis_get [] 0 (pyLower "HeLLo") = redis_get [] 0 (pyLower "hello") ∧
      (chat_endpoint 0 [] "1.2.3.4" "HeLLo" (Except.ok " 4 ") true).1
        = ChatResult.ok (pyStrip " 4 ") "api" ∧
      (chat_endpoint 10 (chat_endpoint 0 [] "1.2.3.4" "HeLLo" (Except.ok " 4 ") true).2.1
          "5.6.7.8" "hello" (Except.error "down") true).1
        = ChatResult.ok (pyStrip " 4 ") "cache") :=
  ⟨⟨by decide, by decide, by decide, by decide⟩,
   c4_case_insensitive 0 10 [] "1.2.3.4" "5.6.7.8" "HeLLo" "hello" " 4 "
     (Except.error "down") (by decide) (by decide) (by decide) (by decide)⟩

/-- C5: for every chat request the limiter admits, whichever path is
taken, the handler performs exactly one cache read, at most one cache
write, at most one upstream call, and commits exactly one log row. -/
theorem c5_effect_counts (history : List Nat) (now : Nat) (cache : Cache)
    (ip q : String) (upstream : Except String String)
    (h : limiter_allows history now = true) :
    (handle_chat_request history now cache ip (some q) upstream true).2.2.cacheReads = 1 ∧
    (handle_chat_request history now cache ip (some q) upstream true).2.2.cacheWrites.length ≤ 1 ∧
    (handle_chat_request history now cache ip (some q) upstream true).2.2.upstreamCalls ≤ 1 ∧
    (handle_chat_request history now cache ip (some q) upstream true).2.2.logEntries.length = 1 := by
  have hs := chat_effects_shape now cache ip q upstream true
  simp only [handle_chat_request, h, if_true]
  exact ⟨hs.1, hs.2.1, hs.2.2.1, hs.2.2.2.2 rfl⟩

/-- C5, witness: one admitted request against the empty cache. -/
theorem c5_witness :
    limiter_allows [] 0 = true ∧
    ((handle_chat_request [] 0 [] "1.2.3.4" (some "q") (Except.ok "a") true).2.2.cacheReads = 1 ∧
     (handle_chat_request [] 0 [] "1.2.3.4" (some "q") (Except.ok "a") true).2.2.cacheWrites.length
       ≤ 1 ∧
     (handle_chat_request [] 0 [] "1.2.3.4" (some "q") (Except.ok "a") true).2.2.upstreamCalls
       ≤ 1 ∧
     (handle_chat_request [] 0 [] "1.2.3.4" (some "q") (Except.ok "a") true).2.2.logEntries.length
       = 1) :=
  ⟨by decide, c5_effect_counts [] 0 [] "1.2.3.4" "q" (Except.ok "a") (by decide)⟩

/-- C6, counterexample: on a concrete cache hit where the log insert
fails, the handler does not return the already-computed response — the
database exception escapes instead of the cached value "world". -/
theorem c6_counterexample :
    (chat_endpoint 0 [⟨"hello", "world", 10⟩] "1.2.3.4" "hello" (Except.ok "x") false).1
      = ChatResult.dbFailure ∧
    (chat_endpoint 0 [⟨"hello", "world", 10⟩] "1.2.3.4" "hello" (Except.ok "x") false).1
      ≠ ChatResult.ok "world" "cache" := by decide

/-- C6, amended: on every invocation that would return a response on the
cached or success path with a working database, a failure of the log
insert does block that response: `log_request_to_db` is called outside
any try/except that catches database errors, so the exception escapes
the handler instead of the computed response. -/
theorem c6_log_failure_blocks (now : Nat) (cache : Cache) (ip q resp src : String)
    (upstream : Except String String)
    (h : (chat_endpoint now cache ip q upstream true).1 = ChatResult.ok resp src) :
    (chat_endpoint now cache ip q upstream false).1 = ChatResult.dbFailure := by
  unfold chat_endpoint
  cases hpt : py_truthy (redis_get cache now (pyLower q)) <;>
    cases upstream <;> simp [get_openai_response, hpt]

/-- C6, witness: a concrete cache hit whose log insert fails. -/
theorem c6_witness :
    (chat_endpoint 0 [⟨"hi", "yes", 10⟩] "1.2.3.4" "HI" (Except.ok "x") true).1
      = ChatResult.ok "yes" "cache" ∧
    (chat_endpoint 0 [⟨"hi", "yes", 10⟩] "1.2.3.4" "HI" (Except.ok "x") false).1
      = ChatResult.dbFailure :=
  ⟨by decide,
   c6_log_failure_blocks 0 [⟨"hi", "yes", 10⟩] "1.2.3.4" "HI" "yes" "cache"
     (Except.ok "x") (by decide)⟩

/-- C7: a chat request from a client with at least 5 requests inside the
rolling 60-second window is rejected as rate-limited before any work:
the cache and history are untouched, no upstream call, no log attempt,
no cache read; the root route carries no limiter and still answers.
Six requests within 60 seconds give the 6th exactly 5 in-window
predecessors, so it is the one rejected. -/
theorem c7_rate_limit (history : List Nat) (now : Nat) (cache : Cache)
    (ip q : String) (upstream : Except String String) (db_ok : Bool)
    (h : 5 ≤ (history.filter (fun t => now < t + 60)).length) :
    handle_chat_request history now cache ip (some q) upstream db_ok
      = (AppResult.rateLimited, cache, noEffects) ∧
    noEffects.logAttempts = 0 ∧ noEffects.upstreamCalls = 0 ∧ noEffects.cacheReads = 0 ∧
    handle_root_request history now = read_root := by
  have hl : limiter_allows history now = false := by
    simp [limiter_allows]
    omega
  refine ⟨?_, rfl, rfl, rfl, rfl⟩
  simp [handle_chat_request, hl]

/-- C7, witness: five requests at instant 0, a sixth at instant 59. -/
theorem c7_witness :
    5 ≤ (([0, 0, 0, 0, 0] : List Nat).filter (fun t => 59 < t + 60)).length ∧
    (handle_chat_request [0, 0, 0, 0, 0] 59 [] "9.9.9.9" (some "hi") (Except.ok "yo") true
        = (AppResult.rateLimited, [], noEffects) ∧
      noEffects.logAttempts = 0 ∧ noEffects.upstreamCalls = 0 ∧ noEffects.cacheReads = 0 ∧
      handle_root_request [0, 0, 0, 0, 0] 59 = read_root) :=
  ⟨by decide,
   c7_rate_limit [0, 0, 0, 0, 0] 59 [] "9.9.9.9" "hi" (Except.ok "yo") true (by decide)⟩

/-- C8, counterexample: the empty-string query is not rejected — it is
processed as a normal query: the handler runs (one upstream call, one
log attempt) and returns a normal 200 body instead of failing. -/
theorem c8_counterexample :
    (handle_chat_request [] 0 [] "1.2.3.4" (some "") (Except.ok "hi") true).1
      = AppResult.chat (ChatResult.ok "hi" "api") ∧
    (handle_chat_request [] 0 [] "1.2.3.4" (some "") (Except.ok "hi") true).2.2.upstreamCalls
      = 1 ∧
    (handle_chat_request [] 0 [] "1.2.3.4" (some "") (Except.ok "hi") true).2.2.logAttempts
      = 1 := by decide

/-- C8, amended: the query parameter is required — a request without it
is rejected with a validation error before any handler work — but the
empty string is not rejected: an admitted request with query "" goes
through the normal handler flow (its cache read happens and its result
is the handler's result). -/
theorem c8_query_validation (history : List Nat) (now : Nat) (cache : Cache)
    (ip : String) (upstream : Except String String) (db_ok : Bool)
    (h : limiter_allows history now = true) :
    handle_chat_request history now cache ip none upstream db_ok
      = (AppResult.validationError, cache, noEffects) ∧
    (handle_chat_request history now cache ip (some "") upstream db_ok).1
      = AppResult.chat (chat_endpoint now cache ip "" upstream db_ok).1 ∧
    (handle_chat_request history now cache ip (some "") upstream db_ok).2.2.cacheReads = 1 := by
  refine ⟨rfl, ?_, ?_⟩
  · simp [handle_chat_request, h]
  · simp only [handle_chat_request, h, if_true]
    exact (chat_effects_shape now cache ip "" upstream db_ok).1

/-- C8, witness: a missing parameter and an empty-string parameter at a
concrete admitted request. -/
theorem c8_witness :
    limiter_allows [] 0 = true ∧
    (handle_chat_request [] 0 [] "1.2.3.4" none (Except.ok "hi") true
        = (AppResult.validationError, [], noEffects) ∧
      (handle_chat_request [] 0 [] "1.2.3.4" (some "") (Except.ok "hi") true).1
        = AppResult.chat (chat_endpoint 0 [] "1.2.3.4" "" (Except.ok "hi") true).1 ∧
      (handle_chat_request [] 0 [] "1.2.3.4" (some "") (Except.ok "hi") true).2.2.cacheReads
        = 1) :=
  ⟨by decide, c8_query_validation [] 0 [] "1.2.3.4" (Except.ok "hi") true (by decide)⟩

/-- C9: a cache entry whose stored value is the empty string is treated
as a miss — the hit test is Python truthiness, not presence — so the
handler calls the upstream client again and does not answer from the
cache. -/
theorem c9_empty_cached_value_miss (now : Nat) (cache : Cache) (ip q : String)
    (upstream : Except String String) (db_ok : Bool)
    (hget : redis_get cache now (pyLower q) = some "") :
    (chat_endpoint now cache ip q upstream db_ok).2.2.upstreamCalls = 1 ∧
    (chat_endpoint now cache ip q upstream db_ok).1 ≠ ChatResult.ok "" "cache" := by
  have hpt : py_truthy (redis_get cache now (pyLower q)) = false := by rw [hget]; rfl
  unfold chat_endpoint
  cases upstream <;> cases db_ok <;> simp [get_openai_response, hpt]

/-- C9, witness: key "q" cached with value "" and a fresh upstream
answer. -/
theorem c9_witness :
    redis_get [⟨"q", "", 100⟩] 0 (pyLower "q") = some "" ∧
    ((chat_endpoint 0 [⟨"q", "", 100⟩] "1.2.3.4" "q" (Except.ok "fresh") true).2.2.upstreamCalls
        = 1 ∧
      (chat_endpoint 0 [⟨"q", "", 100⟩] "1.2.3.4" "q" (Except.ok "fresh") true).1
        ≠ ChatResult.ok "" "cache") :=
  ⟨by decide,
   c9_empty_cached_value_miss 0 [⟨"q", "", 100⟩] "1.2.3.4" "q" (Except.ok "fresh") true
     (by decide)⟩

/-- C10: whenever an invocation returns a 200 body (cached or success
path), the response_text of the single committed log row is exactly the
response string of that body. -/
theorem c10_log_matches_response (now : Nat) (cache : Cache) (ip q resp src : String)
    (upstream : Except String String)
    (h : (chat_endpoint now cache ip q upstream true).1 = ChatResult.ok resp src) :
    (chat_endpoint now cache ip q upstream true).2.2.logEntries.map LogEntry.response_text
      = [resp] := by
  unfold chat_endpoint at h ⊢
  cases hpt : py_truthy (redis_get cache now (pyLower q)) <;>
    cases upstream <;>
      simp [get_openai_response, hpt, log_request_to_db] at h ⊢ <;>
        simp_all

/-- C10, witness: a concrete cache hit; the log row holds the returned
string "yes". -/
theorem c10_witness :
    (chat_endpoint 0 [⟨"hi", "yes", 10⟩] "1.2.3.4" "HI" (Except.ok "x") true).1
      = ChatResult.ok "yes" "cache" ∧
    (chat_endpoint 0 [⟨"hi", "yes", 10⟩] "1.2.3.4" "HI" (Except.ok "x") true).2.2.logEntries.map
        LogEntry.response_text = ["yes"] :=
  ⟨by decide,
   c10_log_matches_response 0 [⟨"hi", "yes", 10⟩] "1.2.3.4" "HI" "yes" "cache"
     (Except.ok "x") (by decide)⟩
